import Mathlib

/-!
Verification development for the kost13 repository.

This file gives a shallow embedding of the session-authorization logic
(`src/project/src/components/auth/ProtectedRoute.tsx`) and of the
marketplace listing derivation and filtering
(`src/unnamed/part_001`, the per-room-type listing page, and
`src/project/src/pages/Marketplace.tsx`, the property-level page),
and proves or refutes the frozen claims about them.

JavaScript conventions modelled explicitly:
* `a || b` on strings is falsy exactly on the empty string, so
  `jsOrStr` falls through on `""` as well as on `none`;
* `Math.min()` of an empty spread is `+Infinity` and `Math.max()` is
  `-Infinity`, modelled by the three-point extension `JsNum` of `Int`;
* `s.includes(p)` is substring containment, modelled by `strIncludes`.
-/

namespace Kost13

/-- JavaScript `s.toLowerCase()`: lower-case each character. -/
def jsToLower (s : String) : String :=
  String.mk (s.toList.map Char.toLower)

/-- JavaScript `s.startsWith(pat)`. -/
def jsStartsWith (s pat : String) : Bool :=
  pat.toList.isPrefixOf s.toList

/-- JavaScript `a || b` where `a` is a possibly-absent string: the result
is `b` when `a` is `undefined`/`null` or the empty string (the only falsy
string), and `a`'s value otherwise. -/
def jsOrStr (a : Option String) (b : String) : String :=
  match a with
  | none => b
  | some s => if s = "" then b else s

/-- `ProtectedRoute.tsx` line 49:
`backofficeUser?.role || session.user.user_metadata?.role || 'tenant'`.
The first argument is the `role` field of the staff-registry
(`backoffice_users`) record when one exists, the second the role claim in
the profile metadata. -/
def resolveRole (staffRole profileClaim : Option String) : String :=
  jsOrStr staffRole (jsOrStr profileClaim "tenant")

/-- The data about an authenticated user consulted by `checkAuth`:
the staff-registry lookup result (`none` when no `backoffice_users` row
exists for the user id) and the profile-metadata role claim. -/
structure UserInfo where
  staffRole : Option String
  metadataRole : Option String
deriving DecidableEq, Repr

/-- Effective role of an authenticated user, `ProtectedRoute.tsx` line 49. -/
def effectiveRole (u : UserInfo) : String :=
  resolveRole u.staffRole u.metadataRole

/-- Outcome of the `checkAuth` routine of `ProtectedRoute.tsx`: either the
guarded children render (`allow`) or the router is told to navigate
elsewhere; `returnTo` records the `{ state: { from: pathname } }` payload
passed on the unauthenticated redirects. -/
inductive RouteDecision where
  | allow : RouteDecision
  | redirectTo (path : String) (returnTo : Option String) : RouteDecision
deriving DecidableEq, Repr

/-- Shallow embedding of `checkAuth` in
`src/project/src/components/auth/ProtectedRoute.tsx` (lines 19-74):
* no session: redirect to `/marketplace/auth` for marketplace paths and to
  `/login` otherwise, carrying the requested path (lines 24-32);
* a non-staff user requesting a `/backoffice` path is sent to `/login`
  (lines 42-46);
* otherwise the effective role is resolved (line 49) and, when
  `allowedRoles` is supplied and does not contain it, the user is sent to
  the role's home, with `/login` as the default branch (lines 53-67). -/
def checkAuth (pathname : String) (allowedRoles : Option (List String))
    (session : Option UserInfo) : RouteDecision :=
  match session with
  | none =>
    if jsStartsWith pathname "/marketplace" then
      .redirectTo "/marketplace/auth" (some pathname)
    else
      .redirectTo "/login" (some pathname)
  | some u =>
    if jsStartsWith pathname "/backoffice" = true ∧ u.staffRole = none then
      .redirectTo "/login" none
    else
      let role := effectiveRole u
      match allowedRoles with
      | some roles =>
        if role ∈ roles then .allow
        else if role = "superadmin" then .redirectTo "/backoffice" none
        else if role = "admin" then .redirectTo "/properties" none
        else if role = "tenant" then .redirectTo "/marketplace" none
        else .redirectTo "/login" none
      | none => .allow

/-- The spec's home mapping (§4.3): superadmin to the back-office root,
admin to the owner-console property list, tenant to the marketplace root.
Stated from the spec's words, to be compared with `checkAuth`. -/
def homeFor (role : String) : String :=
  if role = "superadmin" then "/backoffice"
  else if role = "admin" then "/properties"
  else "/marketplace"

/-! ## Substring matching (JavaScript `String.prototype.includes`) -/

/-- `subChars pat s` holds when `pat` occurs contiguously anywhere in `s`. -/
def subChars (pat : List Char) : List Char → Bool
  | [] => pat.isPrefixOf []
  | b :: s => pat.isPrefixOf (b :: s) || subChars pat s

/-- JavaScript `s.includes(pat)`. -/
def strIncludes (s pat : String) : Bool :=
  subChars pat.toList s.toList

/-! ## Listing derivation, `src/unnamed/part_001` (per-room-type page) -/

/-- Fields of the nested `room_types` records selected by `loadListings`. -/
structure RoomTypeRec where
  id : String
  name : String
  price : Int
  description : Option String
  room_facilities : Option (List String)
  bathroom_facilities : Option (List String)
  photos : Option (List String)
  max_occupancy : Int
  renter_gender : String
deriving DecidableEq, Repr

/-- Fields of the nested `rooms` records selected by `loadListings`. -/
structure RoomRec where
  id : String
  type : String
  status : String
deriving DecidableEq, Repr

/-- Fields of the `properties` records selected by `loadListings`, with
their nested room-type and room collections (absent collections are
`none`, matching the optional chaining in the source). -/
structure PropertyRec where
  id : String
  name : String
  address : String
  city : String
  phone : Option String
  email : Option String
  description : Option String
  marketplace_enabled : Bool
  marketplace_status : String
  room_types : Option (List RoomTypeRec)
  rooms : Option (List RoomRec)
deriving DecidableEq, Repr

/-- The `contact` object of a `KostListing`. -/
structure Contact where
  phone : String
  email : String
deriving DecidableEq, Repr

/-- The `KostListing` interface of `src/unnamed/part_001` (lines 10-30). -/
structure KostListing where
  id : String
  property_id : String
  room_type_id : String
  name : String
  description : String
  address : String
  city : String
  price : Int
  type : String
  room_facilities : List String
  bathroom_facilities : List String
  photos : List String
  contact : Contact
  available_rooms : Nat
  max_occupancy : Int
  renter_gender : String
deriving DecidableEq, Repr

/-- `property.rooms?.filter(room => room.type === roomType.name &&
room.status === 'vacant').length || 0` (`part_001` lines 103-105). -/
def availableRooms (p : PropertyRec) (rt : RoomTypeRec) : Nat :=
  match p.rooms with
  | none => 0
  | some rooms =>
    (rooms.filter (fun r => r.type == rt.name && r.status == "vacant")).length

/-- The listing object pushed for one `(property, roomType)` pair
(`part_001` lines 108-128). -/
def mkListing (p : PropertyRec) (rt : RoomTypeRec) : KostListing :=
  { id := p.id ++ "-" ++ rt.id
    property_id := p.id
    room_type_id := rt.id
    name := p.name ++ " - " ++ rt.name
    description := jsOrStr rt.description (jsOrStr p.description "")
    address := p.address
    city := p.city
    price := rt.price
    type := rt.name
    room_facilities := rt.room_facilities.getD []
    bathroom_facilities := rt.bathroom_facilities.getD []
    photos := rt.photos.getD []
    contact := { phone := jsOrStr p.phone "", email := jsOrStr p.email "" }
    available_rooms := availableRooms p rt
    max_occupancy := rt.max_occupancy
    renter_gender := rt.renter_gender }

/-- The query predicate of `loadListings` (`part_001` lines 87-88):
`.eq('marketplace_enabled', true).eq('marketplace_status', 'published')`. -/
def isMarketplaceEligible (p : PropertyRec) : Bool :=
  p.marketplace_enabled && p.marketplace_status == "published"

/-- `loadListings` (`part_001` lines 53-141) as a function of the catalog:
the store returns the eligible properties, an empty result short-circuits
to no listings, and otherwise the `reduce` over properties pushes one
listing per room type (skipping a property whose `room_types` is absent). -/
def loadListings (catalog : List PropertyRec) : List KostListing :=
  let properties := catalog.filter isMarketplaceEligible
  if properties.isEmpty then []
  else
    properties.foldl
      (fun acc p =>
        match p.room_types with
        | none => acc
        | some rts => acc ++ rts.map (mkListing p))
      []

/-- The listings a single property contributes to `loadListings`. -/
def propertyListings (p : PropertyRec) : List KostListing :=
  match p.room_types with
  | none => []
  | some rts => rts.map (mkListing p)

/-- The filter state of `src/unnamed/part_001` (lines 34-38): search
query, city (empty = all), price bounds (numbers, initial `0` and
`10000000`), room-type and gender dropdowns (`"all"` = no constraint). -/
structure Filters where
  searchQuery : String
  cityFilter : String
  priceMin : Int
  priceMax : Int
  typeFilter : String
  genderFilter : String
deriving DecidableEq, Repr

/-- `matchesSearch` (`part_001` lines 144-147): case-insensitive substring
over `name`, `description` and `address`. -/
def matchesSearch (f : Filters) (l : KostListing) : Bool :=
  strIncludes (jsToLower l.name) (jsToLower f.searchQuery) ||
  strIncludes (jsToLower l.description) (jsToLower f.searchQuery) ||
  strIncludes (jsToLower l.address) (jsToLower f.searchQuery)

/-- `matchesCity` (`part_001` line 149):
`!cityFilter || listing.city.toLowerCase() === cityFilter.toLowerCase()`. -/
def matchesCity (f : Filters) (l : KostListing) : Bool :=
  f.cityFilter == "" || jsToLower l.city == jsToLower f.cityFilter

/-- `matchesPrice` (`part_001` line 150):
`listing.price >= priceRange.min && listing.price <= priceRange.max`. -/
def matchesPrice (f : Filters) (l : KostListing) : Bool :=
  decide (f.priceMin ≤ l.price) && decide (l.price ≤ f.priceMax)

/-- `matchesType` (`part_001` line 151). -/
def matchesType (f : Filters) (l : KostListing) : Bool :=
  f.typeFilter == "all" || l.type == f.typeFilter

/-- `matchesGender` (`part_001` line 152). -/
def matchesGender (f : Filters) (l : KostListing) : Bool :=
  f.genderFilter == "all" || l.renter_gender == f.genderFilter ||
  l.renter_gender == "any"

/-- `filteredListings` (`part_001` lines 143-155): the five predicates
combined with `&&`. -/
def filteredListings (listings : List KostListing) (f : Filters) :
    List KostListing :=
  listings.filter fun l =>
    matchesSearch f l && matchesCity f l && matchesPrice f l &&
    matchesType f l && matchesGender f l

/-! ## Property-level marketplace page,
`src/project/src/pages/Marketplace.tsx` (and its twin `src/unnamed/part_002`) -/

/-- The JavaScript numbers reachable by the price computation of
`Marketplace.tsx`: finite integers plus the two infinities produced by
`Math.min()` / `Math.max()` of an empty spread. -/
inductive JsNum where
  | negInf : JsNum
  | fin (n : Int) : JsNum
  | posInf : JsNum
deriving DecidableEq, Repr

/-- JavaScript `<=` on the modelled numbers. -/
def JsNum.le : JsNum → JsNum → Bool
  | .negInf, _ => true
  | _, .posInf => true
  | .fin a, .fin b => decide (a ≤ b)
  | .posInf, _ => false
  | _, .negInf => false

/-- `Math.min(...xs)`: `+Infinity` on the empty spread, else the least. -/
def jsMathMin (xs : List Int) : JsNum :=
  xs.foldl
    (fun acc n =>
      match acc with
      | .posInf => .fin n
      | .fin m => .fin (min m n)
      | .negInf => .negInf)
    .posInf

/-- `Math.max(...xs)`: `-Infinity` on the empty spread, else the greatest. -/
def jsMathMax (xs : List Int) : JsNum :=
  xs.foldl
    (fun acc n =>
      match acc with
      | .negInf => .fin n
      | .fin m => .fin (max m n)
      | .posInf => .posInf)
    .negInf

/-- The room-type fields this page consults (`rt.price` in the filter,
name and price in the cards). -/
structure MRoomType where
  id : String
  name : String
  price : Int
deriving DecidableEq, Repr

/-- The property fields consulted by `filteredProperties` in
`Marketplace.tsx` (the `properties` state holds the published rows). -/
structure MProperty where
  id : String
  name : String
  address : String
  city : String
  description : Option String
deriving DecidableEq, Repr

/-- `roomTypes[property.id] || []`: the `roomTypes` record keyed by
property id, with an absent key yielding the empty list. -/
def lookupRoomTypes (m : List (String × List MRoomType)) (k : String) :
    List MRoomType :=
  (m.lookup k).getD []

/-- The price-range bounds of `Marketplace.tsx` (line 15): each is the
text of a number input, falsy exactly when the field is empty; `none`
models the empty string, `some n` a field parsing to `n`. -/
structure PriceBounds where
  min : Option Int
  max : Option Int
deriving DecidableEq, Repr

/-- `matchesSearch` of `Marketplace.tsx` (lines 66-69): case-insensitive
substring over `name`, `city` and the optional `description` (an absent
description short-circuits to a falsy match via `?.`). -/
def propMatchesSearch (q : String) (p : MProperty) : Bool :=
  strIncludes (jsToLower p.name) (jsToLower q) ||
  strIncludes (jsToLower p.city) (jsToLower q) ||
  (match p.description with
   | some d => strIncludes (jsToLower d) (jsToLower q)
   | none => false)

/-- `matchesCity` of `Marketplace.tsx` (line 71):
`cityFilter === 'all' || property.city === cityFilter`. -/
def propMatchesCity (cityFilter : String) (p : MProperty) : Bool :=
  cityFilter == "all" || p.city == cityFilter

/-- `matchesPrice` of `Marketplace.tsx` (lines 73-79): the bounds compare
against `Math.min` / `Math.max` over the property's room-type prices, an
unset bound imposing no constraint. -/
def propMatchesPrice (bounds : PriceBounds)
    (rtMap : List (String × List MRoomType)) (p : MProperty) : Bool :=
  let prices := (lookupRoomTypes rtMap p.id).map (·.price)
  let lowestPrice := jsMathMin prices
  let highestPrice := jsMathMax prices
  (match bounds.min with
   | none => true
   | some m => JsNum.le (.fin m) lowestPrice) &&
  (match bounds.max with
   | none => true
   | some m => JsNum.le highestPrice (.fin m))

/-- `filteredProperties` of `Marketplace.tsx` (lines 65-82). -/
def filteredProperties (props : List MProperty)
    (rtMap : List (String × List MRoomType)) (q cityFilter : String)
    (bounds : PriceBounds) : List MProperty :=
  props.filter fun p =>
    propMatchesSearch q p && propMatchesCity cityFilter p &&
    propMatchesPrice bounds rtMap p

/-! ## Claims about role resolution and route authorization -/

/-- C1: for every user id with a staff-registry (`backoffice_users`)
record carrying role `R`, the resolved effective role is `R`, regardless
of the profile-metadata claim. Registry roles range over the closed
non-empty enumeration `'superadmin' | 'admin' | 'support'`
(`src/unnamed/part_005` line 12), captured by the hypothesis `R ≠ ""`
(the empty string is the only falsy string the `||` chain could skip). -/
theorem staff_role_strictly_overrides (R : String) (claim : Option String)
    (hR : R ≠ "") : resolveRole (some R) claim = R := by
  simp [resolveRole, jsOrStr, hR]

theorem staff_role_strictly_overrides_witness :
    ("admin" : String) ≠ "" ∧
    resolveRole (some "admin") (some "tenant") = "admin" :=
  ⟨by decide, staff_role_strictly_overrides "admin" (some "tenant") (by decide)⟩

/-- C2 counterexample: a non-staff user whose profile claim is the
unrecognized value `'superadmin'` resolves to `'superadmin'`, not to the
claimed default `'tenant'` — the `||` chain returns any truthy claim
verbatim. -/
theorem profile_claim_not_normalized :
    resolveRole none (some "superadmin") = "superadmin" ∧
    ("superadmin" : String) ≠ "tenant" ∧
    "superadmin" ∉ (["admin", "tenant"] : List String) := by
  refine ⟨by decide, by decide, by decide⟩

/-- C2 amended: for a user with no staff-registry record, the resolved
role equals the profile claim whenever the claim is any non-empty string
(unrecognized values such as `'superadmin'` included), and `'tenant'`
exactly when the claim is absent or the empty string. -/
theorem profile_claim_verbatim (c : String) (hc : c ≠ "") :
    resolveRole none (some c) = c ∧
    resolveRole none none = "tenant" ∧
    resolveRole none (some "") = "tenant" := by
  refine ⟨by simp [resolveRole, jsOrStr, hc], by decide, by decide⟩

theorem profile_claim_verbatim_witness :
    ("superadmin" : String) ≠ "" ∧
    resolveRole none (some "superadmin") = "superadmin" :=
  ⟨by decide, (profile_claim_verbatim "superadmin" (by decide)).1⟩

/-- C3 counterexample: an authenticated non-staff snapshot with effective
role `'tenant'` requesting `/backoffice` (a `'superadmin'`-only area) is
redirected to `/login` by the back-office gate (lines 42-46), not to the
tenant home `/marketplace` the claim requires. -/
theorem backoffice_gate_beats_home_redirect :
    effectiveRole ⟨none, some "tenant"⟩ = "tenant" ∧
    "tenant" ∉ (["superadmin"] : List String) ∧
    checkAuth "/backoffice" (some ["superadmin"]) (some ⟨none, some "tenant"⟩) =
      .redirectTo "/login" none ∧
    RouteDecision.redirectTo "/login" none ≠
      .redirectTo (homeFor "tenant") none := by
  refine ⟨by decide, by decide, by decide, by decide⟩

/-- C3 amended: provided the requested path is not a `/backoffice` path or
the user has a staff-registry record (so the back-office gate of lines
42-46 does not fire), an authenticated snapshot whose effective role is
one of the three enumerated roles but is not in the area's `allowedRoles`
is redirected to that role's own home: superadmin to `/backoffice`, admin
to `/properties`, tenant to `/marketplace`. -/
theorem role_mismatch_redirects_home (pathname : String)
    (roles : List String) (u : UserInfo)
    (hgate : jsStartsWith pathname "/backoffice" = false ∨ u.staffRole ≠ none)
    (hrole : effectiveRole u ∈ (["superadmin", "admin", "tenant"] : List String))
    (hmem : effectiveRole u ∉ roles) :
    checkAuth pathname (some roles) (some u) =
      .redirectTo (homeFor (effectiveRole u)) none := by
  have hgate' : ¬(jsStartsWith pathname "/backoffice" = true ∧ u.staffRole = none) := by
    rintro ⟨h1, h2⟩
    rcases hgate with hg | hg
    · rw [hg] at h1; exact Bool.false_ne_true h1
    · exact hg h2
  simp only [checkAuth, if_neg hgate']
  simp only [List.mem_cons, List.mem_singleton, List.not_mem_nil, or_false] at hrole
  rcases hrole with h | h | h <;> rw [h] at hmem ⊢ <;>
    simp [hmem, homeFor]

theorem role_mismatch_redirects_home_witness :
    (jsStartsWith "/properties" "/backoffice" = false ∨
      (UserInfo.mk none none).staffRole ≠ none) ∧
    effectiveRole ⟨none, none⟩ ∈ (["superadmin", "admin", "tenant"] : List String) ∧
    effectiveRole ⟨none, none⟩ ∉ (["admin"] : List String) ∧
    checkAuth "/properties" (some ["admin"]) (some ⟨none, none⟩) =
      .redirectTo "/marketplace" none :=
  ⟨by decide, by decide, by decide,
    (role_mismatch_redirects_home "/properties" ["admin"] ⟨none, none⟩
      (by decide) (by decide) (by decide)).trans (by decide)⟩

/-- C4: every unauthenticated request is redirected to a sign-in entry
point determined only by the requested path: `/marketplace/auth` when the
path starts with `/marketplace`, `/login` otherwise; in both cases the
requested path is carried as the return target. -/
theorem unauthenticated_redirects_to_signin (pathname : String)
    (allowedRoles : Option (List String)) :
    (jsStartsWith pathname "/marketplace" = true →
      checkAuth pathname allowedRoles none =
        .redirectTo "/marketplace/auth" (some pathname)) ∧
    (jsStartsWith pathname "/marketplace" = false →
      checkAuth pathname allowedRoles none =
        .redirectTo "/login" (some pathname)) := by
  constructor <;> intro h <;> simp [checkAuth, h]

theorem unauthenticated_redirects_to_signin_witness :
    checkAuth "/marketplace/saved" none none =
      .redirectTo "/marketplace/auth" (some "/marketplace/saved") ∧
    checkAuth "/dashboard" (some ["admin"]) none =
      .redirectTo "/login" (some "/dashboard") :=
  ⟨(unauthenticated_redirects_to_signin "/marketplace/saved" none).1 (by decide),
   (unauthenticated_redirects_to_signin "/dashboard" (some ["admin"])).2 (by decide)⟩

/-- C5 counterexample: a staff-registry record with the unrecognized role
`'support'` (a value the back-office user-management screen can store) is
carried verbatim into the effective role, and on an `'admin'`-only area
the decision is the silent default-branch redirect to `/login` — no
data-integrity error is raised and no support-visible state exists in the
decision outcome. -/
theorem unrecognized_staff_role_silently_redirects :
    resolveRole (some "support") (some "admin") = "support" ∧
    checkAuth "/properties" (some ["admin"]) (some ⟨some "support", none⟩) =
      .redirectTo "/login" none := by
  refine ⟨by decide, by decide⟩

/-- C5 amended: a staff-registry role outside
`{superadmin, admin, tenant}` is returned verbatim by role resolution (it
is not coerced to a default), and whenever it is not in the area's
`allowedRoles` the route decision is the default-branch redirect to
`/login` — the code surfaces no data-integrity error. -/
theorem unrecognized_staff_role_behaviour (r : String) (claim : Option String)
    (pathname : String) (roles : List String) (hr : r ≠ "")
    (hr3 : r ∉ (["superadmin", "admin", "tenant"] : List String))
    (hmem : r ∉ roles) :
    resolveRole (some r) claim = r ∧
    checkAuth pathname (some roles) (some ⟨some r, claim⟩) =
      .redirectTo "/login" none := by
  have hres : resolveRole (some r) claim = r := by simp [resolveRole, jsOrStr, hr]
  refine ⟨hres, ?_⟩
  simp only [List.mem_cons, List.mem_singleton, List.not_mem_nil, or_false,
    not_or] at hr3
  obtain ⟨h1, h2, h3⟩ := hr3
  have hgate' : ¬(jsStartsWith pathname "/backoffice" = true ∧
      (some r : Option String) = none) := by
    rintro ⟨-, h⟩; exact Option.some_ne_none r h
  simp only [checkAuth, if_neg hgate']
  have : effectiveRole ⟨some r, claim⟩ = r := hres
  simp [this, hmem, h1, h2, h3]

theorem unrecognized_staff_role_behaviour_witness :
    ("support" : String) ≠ "" ∧
    "support" ∉ (["superadmin", "admin", "tenant"] : List String) ∧
    "support" ∉ (["admin"] : List String) ∧
    resolveRole (some "support") none = "support" ∧
    checkAuth "/dashboard" (some ["admin"]) (some ⟨some "support", none⟩) =
      .redirectTo "/login" none := by
  refine ⟨by decide, by decide, by decide, ?_, ?_⟩
  · exact (unrecognized_staff_role_behaviour "support" none "/dashboard" ["admin"]
      (by decide) (by decide) (by decide)).1
  · exact (unrecognized_staff_role_behaviour "support" none "/dashboard" ["admin"]
      (by decide) (by decide) (by decide)).2

/-! ## Claims about the listing derivation -/

theorem subChars_iff (pat s : List Char) : subChars pat s = true ↔ pat <:+: s := by
  induction s with
  | nil => simp [subChars, List.isPrefixOf_iff_prefix, List.infix_nil, List.prefix_nil]
  | cons b s ih =>
    simp [subChars, List.isPrefixOf_iff_prefix, ih, List.infix_cons_iff,
      Bool.or_eq_true]

theorem loadListings_foldl (l : List PropertyRec) (init : List KostListing) :
    l.foldl
      (fun acc p =>
        match p.room_types with
        | none => acc
        | some rts => acc ++ rts.map (mkListing p))
      init = init ++ l.flatMap propertyListings := by
  induction l generalizing init with
  | nil => simp
  | cons p t ih =>
    simp only [List.foldl_cons, List.flatMap_cons]
    rw [ih]
    cases hp : p.room_types
    · simp [propertyListings, hp]
    · simp [propertyListings, hp, List.append_assoc]

/-- `loadListings` is the concatenation of each eligible property's
per-room-type listings, in catalog order. -/
theorem loadListings_eq (catalog : List PropertyRec) :
    loadListings catalog =
      (catalog.filter isMarketplaceEligible).flatMap propertyListings := by
  rw [loadListings]
  split
  · next hemp =>
    rw [List.isEmpty_iff] at hemp
    simp [hemp]
  · rw [loadListings_foldl, List.nil_append]

theorem propertyListings_property_id (q : PropertyRec) (l : KostListing)
    (h : l ∈ propertyListings q) : l.property_id = q.id := by
  unfold propertyListings at h
  cases hq : q.room_types <;> rw [hq] at h
  · exact absurd h (List.not_mem_nil l)
  · obtain ⟨rt, -, rfl⟩ := List.mem_map.1 h
    rfl

/-- C6: for an eligible (published, marketplace-enabled) property the
derivation emits exactly one listing per room type regardless of the
available count (zero included), none when the property has no room
types; each emitted listing's `available_rooms` is the number of that
property's rooms whose `type` equals the room type's name and whose
`status` is `'vacant'`, and its single price field — serving as both the
lowest and the highest price of the listing — is the room type's price. -/
theorem one_listing_per_room_type (p : PropertyRec)
    (helig : isMarketplaceEligible p = true) :
    (∀ rts, p.room_types = some rts →
        loadListings [p] = rts.map (mkListing p) ∧
        (loadListings [p]).length = rts.length) ∧
    (p.room_types = none → loadListings [p] = []) ∧
    (∀ rt, (mkListing p rt).available_rooms =
        ((p.rooms.getD []).filter
          (fun r => r.type == rt.name && r.status == "vacant")).length ∧
      (mkListing p rt).price = rt.price) := by
  have hload : loadListings [p] = propertyListings p := by
    rw [loadListings_eq]
    simp [helig]
  refine ⟨?_, ?_, ?_⟩
  · intro rts hrts
    rw [hload]
    unfold propertyListings
    rw [hrts]
    exact ⟨rfl, by simp⟩
  · intro hnone
    rw [hload]
    unfold propertyListings
    rw [hnone]
  · intro rt
    refine ⟨?_, rfl⟩
    show availableRooms p rt = _
    unfold availableRooms
    cases p.rooms <;> rfl

/-- The §8 scenario: property `P1`, room type `"Single"` priced 900000,
one vacant and one occupied room of that type. -/
def scenarioSingle : RoomTypeRec :=
  ⟨"rt1", "Single", 900000, none, none, none, none, 2, "any"⟩

/-- The §8 scenario property `P1` (published, marketplace-enabled). -/
def scenarioP1 : PropertyRec :=
  ⟨"P1", "Kost Satu", "Jl. Merdeka 1", "Bandung", none, none, none,
    true, "published", some [scenarioSingle],
    some [⟨"r1", "Single", "vacant"⟩, ⟨"r2", "Single", "occupied"⟩]⟩

theorem one_listing_per_room_type_witness :
    isMarketplaceEligible scenarioP1 = true ∧
    loadListings [scenarioP1] = [mkListing scenarioP1 scenarioSingle] ∧
    (mkListing scenarioP1 scenarioSingle).available_rooms = 1 ∧
    (mkListing scenarioP1 scenarioSingle).price = 900000 := by
  have h := one_listing_per_room_type scenarioP1 (by decide)
  refine ⟨by decide, ?_, by decide, by decide⟩
  have h1 := (h.1 [scenarioSingle] rfl).1
  simpa using h1

/-- C7: under every filter configuration, every listing in the output is
derived from a catalog property that is marketplace-enabled and
published; consequently no listing of a property that fails either flag
(identified by its unique id) ever appears. -/
theorem disabled_property_never_listed (catalog : List PropertyRec)
    (f : Filters) :
    (∀ l ∈ filteredListings (loadListings catalog) f,
        ∃ p, p ∈ catalog ∧ p.marketplace_enabled = true ∧
          p.marketplace_status = "published" ∧ l ∈ propertyListings p) ∧
    (∀ p, p ∈ catalog →
        (p.marketplace_enabled = false ∨ p.marketplace_status ≠ "published") →
        (∀ q, q ∈ catalog → q.id = p.id → q = p) →
        ∀ l ∈ filteredListings (loadListings catalog) f,
          l.property_id ≠ p.id) := by
  have hsrc : ∀ l ∈ filteredListings (loadListings catalog) f,
      ∃ p, p ∈ catalog ∧ p.marketplace_enabled = true ∧
        p.marketplace_status = "published" ∧ l ∈ propertyListings p := by
    intro l hl
    have hl' : l ∈ loadListings catalog :=
      (List.mem_filter.1 hl).1
    rw [loadListings_eq] at hl'
    obtain ⟨q, hq, hlq⟩ := List.mem_flatMap.1 hl'
    obtain ⟨hqc, helig⟩ := List.mem_filter.1 hq
    unfold isMarketplaceEligible at helig
    rw [Bool.and_eq_true, beq_iff_eq] at helig
    exact ⟨q, hqc, helig.1, helig.2, hlq⟩
  refine ⟨hsrc, ?_⟩
  intro p _ hbad huniq l hl hid
  obtain ⟨q, hqc, hqe, hqs, hlq⟩ := hsrc l hl
  have hqp : q = p := huniq q hqc ((propertyListings_property_id q l hlq) ▸ hid)
  rcases hbad with hb | hb
  · rw [hqp] at hqe; exact Bool.noConfusion (hqe.symm.trans hb)
  · exact hb (hqp ▸ hqs)

/-- The §8 scenario property `P2`: identical room data to `P1` but with
`marketplace_enabled = false`. -/
def scenarioP2 : PropertyRec :=
  ⟨"P2", "Kost Dua", "Jl. Merdeka 2", "Bandung", none, none, none,
    false, "published", some [scenarioSingle],
    some [⟨"r3", "Single", "vacant"⟩, ⟨"r4", "Single", "occupied"⟩]⟩

/-- The filter state as initialized by the page (`part_001` lines 34-38). -/
def defaultFilters : Filters := ⟨"", "", 0, 10000000, "all", "all"⟩

theorem disabled_property_never_listed_witness :
    scenarioP2 ∈ [scenarioP1, scenarioP2] ∧
    scenarioP2.marketplace_enabled = false ∧
    (∀ l ∈ filteredListings (loadListings [scenarioP1, scenarioP2])
        defaultFilters, l.property_id ≠ "P2") := by
  refine ⟨by decide, by decide, ?_⟩
  have h := (disabled_property_never_listed [scenarioP1, scenarioP2]
      defaultFilters).2 scenarioP2 (by decide) (Or.inl (by decide))
      (by decide)
  exact h

/-- A listing whose `city` alone contains the search text. -/
def cityOnlyListing : KostListing :=
  ⟨"P9-rt9", "P9", "rt9", "x", "x", "x", "Bandung", 500000, "Single",
    [], [], [], ⟨"", ""⟩, 1, 2, "any"⟩

/-- A filter state whose non-empty query names that city. -/
def citySearchFilters : Filters := ⟨"bandung", "", 0, 10000000, "all", "all"⟩

/-- C8 counterexample: the query `"bandung"` is a case-insensitive
substring of the listing's `city` field, yet the text-search predicate of
`part_001` is false — `city` is not among the consulted fields (lines
144-147 consult only `name`, `description` and `address`). -/
theorem search_skips_city_field :
    citySearchFilters.searchQuery ≠ "" ∧
    strIncludes (jsToLower cityOnlyListing.city)
      (jsToLower citySearchFilters.searchQuery) = true ∧
    matchesSearch citySearchFilters cityOnlyListing = false := by
  refine ⟨by decide, by decide, by decide⟩

/-- C8 amended: the per-listing text search (`part_001`) holds iff the
query is a case-insensitive substring of at least one of `name`,
`description`, `address` — `city` is not consulted; the property-level
variant (`Marketplace.tsx`) instead consults `name`, `city` and the
optional `description` — `address` is not consulted there. -/
theorem search_consulted_fields (f : Filters) (l : KostListing)
    (q : String) (p : MProperty) :
    (matchesSearch f l = true ↔
      ((jsToLower f.searchQuery).toList <:+: (jsToLower l.name).toList ∨
       (jsToLower f.searchQuery).toList <:+: (jsToLower l.description).toList ∨
       (jsToLower f.searchQuery).toList <:+: (jsToLower l.address).toList)) ∧
    (propMatchesSearch q p = true ↔
      ((jsToLower q).toList <:+: (jsToLower p.name).toList ∨
       (jsToLower q).toList <:+: (jsToLower p.city).toList ∨
       ∃ d, p.description = some d ∧
         (jsToLower q).toList <:+: (jsToLower d).toList)) := by
  constructor
  · simp [matchesSearch, strIncludes, Bool.or_eq_true, subChars_iff, or_assoc]
  · cases hd : p.description <;>
      simp [propMatchesSearch, strIncludes, Bool.or_eq_true, subChars_iff, hd,
        or_assoc]

/-- C9: a listing survives `filteredListings` iff it is among the inputs
and independently satisfies each of the five supplied predicates — search,
city (case-insensitive equality, an empty city filter imposing no
constraint), price range over the listing's price (its lowest and highest
price coincide), type, and gender (`'any'` passing every requested
gender) — i.e. the combined filter is their AND-conjunction. -/
theorem filter_conjunction (ls : List KostListing) (f : Filters)
    (l : KostListing) :
    l ∈ filteredListings ls f ↔
      l ∈ ls ∧ matchesSearch f l = true ∧
      (f.cityFilter = "" ∨ jsToLower l.city = jsToLower f.cityFilter) ∧
      (f.priceMin ≤ l.price ∧ l.price ≤ f.priceMax) ∧
      (f.typeFilter = "all" ∨ l.type = f.typeFilter) ∧
      (f.genderFilter = "all" ∨ l.renter_gender = f.genderFilter ∨
        l.renter_gender = "any") := by
  simp [filteredListings, List.mem_filter, matchesCity, matchesPrice,
    matchesType, matchesGender, Bool.and_eq_true, Bool.or_eq_true,
    beq_iff_eq, decide_eq_true_iff, and_assoc, or_assoc]

/-- C10: in the property-level variant, a published property whose
room-type list is empty gets `lowestPrice = Math.min() = +Infinity` and
`highestPrice = Math.max() = -Infinity`, passes the price predicate for
every choice of bounds (`+Infinity >= min` and `-Infinity <= max` always
hold, and unset bounds are vacuous), and hence appears in the filtered
results exactly when it passes the search and city predicates. -/
theorem empty_room_types_pass_price (props : List MProperty)
    (rtMap : List (String × List MRoomType)) (q cityFilter : String)
    (bounds : PriceBounds) (p : MProperty)
    (hempty : lookupRoomTypes rtMap p.id = []) :
    jsMathMin ((lookupRoomTypes rtMap p.id).map (·.price)) = JsNum.posInf ∧
    jsMathMax ((lookupRoomTypes rtMap p.id).map (·.price)) = JsNum.negInf ∧
    propMatchesPrice bounds rtMap p = true ∧
    (p ∈ filteredProperties props rtMap q cityFilter bounds ↔
      p ∈ props ∧ propMatchesSearch q p = true ∧
        propMatchesCity cityFilter p = true) := by
  have hprice : propMatchesPrice bounds rtMap p = true := by
    obtain ⟨bmin, bmax⟩ := bounds
    cases bmin <;> cases bmax <;>
      simp [propMatchesPrice, hempty, jsMathMin, jsMathMax, JsNum.le]
  refine ⟨by rw [hempty]; rfl, by rw [hempty]; rfl, hprice, ?_⟩
  simp [filteredProperties, List.mem_filter, hprice, Bool.and_eq_true]

/-- A published property with no room types, for the C10 scenario. -/
def emptyTypesProperty : MProperty :=
  ⟨"p0", "Kost Kosong", "Jl. Anggrek 3", "Bandung", none⟩

theorem empty_room_types_pass_price_witness :
    lookupRoomTypes [] emptyTypesProperty.id = [] ∧
    emptyTypesProperty ∈
      filteredProperties [emptyTypesProperty] [] "" "all"
        ⟨some 1000000, some 2000⟩ := by
  refine ⟨by decide, ?_⟩
  have h := (empty_room_types_pass_price [emptyTypesProperty] [] "" "all"
      ⟨some 1000000, some 2000⟩ emptyTypesProperty (by decide)).2.2.2
  exact h.2 ⟨by decide, by decide, by decide⟩

end Kost13
